import Mathlib

/-!
Shallow embedding of the status-indication subsystem of the
help-button-firmware repository.

Sources embedded:
- src/button_firmware_pio/include/debug_led.h  (namespace PioLed):
  the coarse, millisecond-clock variant, LED-enabled and LED-disabled
  backends.
- src/main/arduino/button_firmware/debug_led.h (namespace ArdLed):
  the fine, microsecond-clock / register-synced variant, LED-enabled and
  LED-disabled backends.
- src/main/arduino/button_firmware/debug.h     (namespace Dbg):
  the compile-time-gated logging facade.

Machine integers are modelled as Nat with explicit reduction modulo 2^32
(uint32_t) or 2^64 (uint64_t) where the C code can overflow.
-/

namespace HelpButton

/-- 2^32, the modulus of C uint32_t arithmetic. -/
def U32 : Nat := 2 ^ 32

/-- 2^64, the modulus of C uint64_t arithmetic. -/
def U64 : Nat := 2 ^ 64

/-- C unsigned 32-bit subtraction: the value of `a - b` computed in
uint32_t, i.e. the mathematical difference modulo 2^32. -/
def u32sub (a b : Nat) : Nat := (((a : Int) - (b : Int)) % (U32 : Int)).toNat

/-- C unsigned 64-bit subtraction: the value of `a - b` computed in
uint64_t, i.e. the mathematical difference modulo 2^64. -/
def u64sub (a b : Nat) : Nat := (((a : Int) - (b : Int)) % (U64 : Int)).toNat

/-- An RGB colour triple, as passed to `statusLed.Color(r, g, b)`. -/
structure Pixel where
  r : Nat
  g : Nat
  b : Nat
deriving DecidableEq, Repr

/-- The all-zero colour `Color(0, 0, 0)`. -/
def Pixel.off : Pixel := ⟨0, 0, 0⟩

/-- State of the single-pixel Adafruit_NeoPixel object `statusLed`:
`buffer` is the colour written by `setPixelColor(0, ...)`, `brightness`
the value written by `setBrightness`, and `shown` / `shownBrightness`
the frame latched to the hardware by the last `show()` call. -/
structure NeoPixel where
  buffer : Pixel
  brightness : Nat
  shown : Pixel
  shownBrightness : Nat
deriving DecidableEq, Repr

/-- `statusLed.setPixelColor(0, c)`. -/
def setPixelColor (c : Pixel) (led : NeoPixel) : NeoPixel :=
  { led with buffer := c }

/-- `statusLed.setBrightness(n)`. -/
def setBrightness (n : Nat) (led : NeoPixel) : NeoPixel :=
  { led with brightness := n }

/-- `statusLed.show()`: latch the buffered frame to the hardware. -/
def showFrame (led : NeoPixel) : NeoPixel :=
  { led with shown := led.buffer, shownBrightness := led.brightness }

/-- `statusLed.clear()`: zero the buffered colour. -/
def clear (led : NeoPixel) : NeoPixel :=
  { led with buffer := Pixel.off }

/-- The pixel counts as lit (on) when the latched frame is a non-zero
colour. -/
def pixelLit (led : NeoPixel) : Bool := decide (led.shown ≠ Pixel.off)

/-- Digital output level of a GPIO pin. -/
inductive Level where
  | low
  | high
deriving DecidableEq, Repr

/-- Configured direction of a GPIO pin. -/
inductive PinDir where
  | floatingInput
  | output
deriving DecidableEq, Repr

/-- State of one digital pin: its configured direction and driven level
(meaningful when the direction is `output`). -/
structure PinState where
  dir : PinDir
  level : Level
deriving DecidableEq, Repr

end HelpButton

namespace HelpButton.PioLed

/-- `#define DEBUG_LED_PIN 8` (src/button_firmware_pio/include/debug_led.h). -/
def DEBUG_LED_PIN : Nat := 8

/-- `#define DEBUG_LED_BRIGHTNESS 15`. -/
def DEBUG_LED_BRIGHTNESS : Nat := 15

end HelpButton.PioLed

namespace HelpButton.PioLed.Enabled

open HelpButton

/-- Oscillator state of the coarse `blinkLed`: the two function-static
variables `uint32_t lastBlinkTime = 0; bool ledState = false;`. -/
structure BlinkState where
  lastBlinkTime : Nat
  ledState : Bool
deriving DecidableEq, Repr

/-- The statics' initial values at boot: `{0, false}`. -/
def blinkInit : BlinkState := ⟨0, false⟩

/-- `LED_INIT()` for the enabled backend:
`statusLed.begin(); statusLed.clear(); statusLed.show();`. -/
def LED_INIT (led : NeoPixel) : NeoPixel :=
  showFrame (clear led)

/-- The NeoPixel state right after boot-time `LED_INIT()`: cleared
buffer, blank latched frame (brightness still at the library default
255, which `LED_INIT` does not touch). -/
def initLed : NeoPixel := LED_INIT ⟨Pixel.off, 255, Pixel.off, 255⟩

/-- `setLedColor(r, g, b)` for the enabled backend:
`setPixelColor(0, Color(r,g,b)); setBrightness(DEBUG_LED_BRIGHTNESS); show();`. -/
def setLedColor (r g b : Nat) (led : NeoPixel) : NeoPixel :=
  showFrame (setBrightness DEBUG_LED_BRIGHTNESS (setPixelColor ⟨r, g, b⟩ led))

/-- `blinkLed(r, g, b, interval)` for the enabled backend, coarse
(millisecond-clock) variant. `currentTime` is the raw monotonic
millisecond count; `millis()` delivers it truncated to uint32_t,
hence `% U32`. Returns the new oscillator state, the new LED state and
whether the toggle fired (i.e. whether any hardware operation was
performed). -/
def blinkLed (r g b : Nat) (interval : Nat) (currentTime : Nat)
    (s : BlinkState) (led : NeoPixel) : BlinkState × NeoPixel × Bool :=
  let cur := currentTime % U32
  if u32sub cur s.lastBlinkTime ≥ interval then
    let st := !s.ledState
    let led1 := if st then setPixelColor ⟨r, g, b⟩ led
                else setPixelColor Pixel.off led
    (⟨cur, st⟩, showFrame (setBrightness DEBUG_LED_BRIGHTNESS led1), true)
  else
    (s, led, false)

/-- `#define LED_OFF() setLedColor(0, 0, 0)`. -/
def LED_OFF (led : NeoPixel) : NeoPixel := setLedColor 0 0 0 led

/-- `#define LED_RED() setLedColor(255, 0, 0)`. -/
def LED_RED (led : NeoPixel) : NeoPixel := setLedColor 255 0 0 led

/-- `#define LED_YELLOW() setLedColor(255, 125, 0)`. -/
def LED_YELLOW (led : NeoPixel) : NeoPixel := setLedColor 255 125 0 led

/-- `#define LED_GREEN() setLedColor(0, 255, 0)`. -/
def LED_GREEN (led : NeoPixel) : NeoPixel := setLedColor 0 255 0 led

/-- `#define BLINK_YELLOW_LED(interval) blinkLed(255, 125, 0, interval)`. -/
def BLINK_YELLOW_LED (interval currentTime : Nat)
    (s : BlinkState) (led : NeoPixel) : BlinkState × NeoPixel × Bool :=
  blinkLed 255 125 0 interval currentTime s led

/-- Poll `blinkLed` at a fixed colour and interval once per simulated
timestamp in `ts`, collecting the per-call fired flags in order. -/
def runBlink (r g b interval : Nat) (ts : List Nat)
    (s : BlinkState) (led : NeoPixel) : BlinkState × NeoPixel × List Bool :=
  ts.foldl (fun acc t =>
    let out := blinkLed r g b interval t acc.1 acc.2.1
    (out.1, out.2.1, acc.2.2 ++ [out.2.2])) (s, led, [])

end HelpButton.PioLed.Enabled

namespace HelpButton.PioLed.Disabled

open HelpButton

/-- `LED_INIT()` for the disabled backend:
`pinMode(DEBUG_LED_PIN, OUTPUT); digitalWrite(DEBUG_LED_PIN, LOW);`. -/
def LED_INIT (_p : PinState) : PinState :=
  ⟨PinDir.output, Level.low⟩

/-- `setLedColor` for the disabled backend: empty body `{}`. -/
def setLedColor (_r _g _b : Nat) (p : PinState) : PinState := p

/-- `blinkLed` for the disabled backend: empty body `{}`. It keeps no
static state; for comparison with the enabled backend's oscillator we
thread the same `Enabled.BlinkState` through it, which the empty body
leaves untouched, performs no write (`false`). -/
def blinkLed (_r _g _b _interval _currentTime : Nat)
    (s : Enabled.BlinkState) (p : PinState) :
    Enabled.BlinkState × PinState × Bool :=
  (s, p, false)

/-- The operations a caller of the shared interface can invoke after
initialization (disabled backend): `setLedColor`, `blinkLed`, and the
empty colour macros `LED_OFF()`, `LED_RED()`, `LED_YELLOW()`,
`LED_GREEN()`, `BLINK_YELLOW_LED(i)` (which expands to `blinkLed`). -/
inductive Op where
  | setColor (r g b : Nat)
  | blink (r g b interval currentTime : Nat)
  | ledOff
  | ledRed
  | ledYellow
  | ledGreen
  | blinkYellowEmpty (interval currentTime : Nat)
deriving DecidableEq, Repr

/-- Effect of one disabled-backend operation on the fallback pin.
Every body in the disabled branch of the header is empty, so each
operation leaves the pin untouched. -/
def runOp (p : PinState) : Op → PinState
  | Op.setColor r g b => setLedColor r g b p
  | Op.blink r g b interval currentTime =>
      (blinkLed r g b interval currentTime Enabled.blinkInit p).2.1
  | Op.ledOff => p
  | Op.ledRed => p
  | Op.ledYellow => p
  | Op.ledGreen => p
  | Op.blinkYellowEmpty interval currentTime =>
      (blinkLed 0 0 0 interval currentTime Enabled.blinkInit p).2.1

/-- Run a sequence of disabled-backend operations. -/
def runOps (p : PinState) (ops : List Op) : PinState :=
  ops.foldl runOp p

/-- `#define LED_OFF()` for the disabled backend: empty macro. -/
def LED_OFF (p : PinState) : PinState := p

end HelpButton.PioLed.Disabled

namespace HelpButton.ArdLed

/-- `#define DEBUG_LED_PIN 8` (src/main/arduino/button_firmware/debug_led.h). -/
def DEBUG_LED_PIN : Nat := 8

/-- `#define DEBUG_LED_BRIGHTNESS 15`. -/
def DEBUG_LED_BRIGHTNESS : Nat := 15

end HelpButton.ArdLed

namespace HelpButton.ArdLed.Enabled

open HelpButton

/-- Combined state of the fine (microsecond-clock, register-synced)
variant: the function-static `uint64_t lastBlinkTime = 0`, the NeoPixel
object, and bit `DEBUG_LED_PIN` of the GPIO output register
`GPIO_OUT_REG` (the only register bit this subsystem reads or writes:
`REG_READ(GPIO_OUT_REG) & (1ULL << DEBUG_LED_PIN)` tests it,
`REG_WRITE(GPIO_OUT_W1TC_REG, ...)` clears it,
`REG_WRITE(GPIO_OUT_W1TS_REG, ...)` sets it). -/
structure FineState where
  lastBlinkTime : Nat
  led : NeoPixel
  regBit : Bool
deriving DecidableEq, Repr

/-- `setLedColor(r, g, b)` (identical to the coarse variant's):
`setPixelColor(0, Color(r,g,b)); setBrightness(DEBUG_LED_BRIGHTNESS); show();`. -/
def setLedColor (r g b : Nat) (led : NeoPixel) : NeoPixel :=
  showFrame (setBrightness DEBUG_LED_BRIGHTNESS (setPixelColor ⟨r, g, b⟩ led))

/-- `blinkLed(r, g, b, interval)`, fine variant. `timeUs` is the raw
monotonic microsecond count returned by `esp_timer_get_time()`;
the code stores `esp_timer_get_time() / 1000` in a uint64_t.
When the elapsed test fires it updates `lastBlinkTime` and then:
if the register bit is set, clears it (`W1TC`) and leaves the pixel
untouched; otherwise drives the pixel to the colour (setPixelColor,
setBrightness, show) and sets the register bit (`W1TS`).
Returns the new state and whether the toggle fired. -/
def blinkLed (r g b : Nat) (interval : Nat) (timeUs : Nat)
    (s : FineState) : FineState × Bool :=
  let currentTime := (timeUs / 1000) % U64
  if u64sub currentTime s.lastBlinkTime ≥ interval then
    if s.regBit then
      ({ s with lastBlinkTime := currentTime, regBit := false }, true)
    else
      ({ lastBlinkTime := currentTime,
         led := showFrame (setBrightness DEBUG_LED_BRIGHTNESS
                  (setPixelColor ⟨r, g, b⟩ s.led)),
         regBit := true }, true)
  else
    (s, false)

/-- `LED_INIT()`: `begin(); clear(); show();` — the GPIO register bit is
not touched by initialization and starts clear at boot. -/
def LED_INIT (s : FineState) : FineState :=
  { s with led := showFrame (clear s.led) }

/-- State after boot-time `LED_INIT()`: statics zeroed, blank frame,
register bit clear. -/
def initState : FineState :=
  LED_INIT ⟨0, ⟨Pixel.off, 255, Pixel.off, 255⟩, false⟩

/-- `#define LED_OFF() setLedColor(0, 0, 0)`. -/
def LED_OFF (led : NeoPixel) : NeoPixel := setLedColor 0 0 0 led

/-- `#define blinkYellow(interval) blinkLed(255, 125, 0, interval)`. -/
def blinkYellow (interval timeUs : Nat) (s : FineState) : FineState × Bool :=
  blinkLed 255 125 0 interval timeUs s

end HelpButton.ArdLed.Enabled

namespace HelpButton.ArdLed.Disabled

open HelpButton

/-- `LED_INIT()` for the disabled backend:
`pinMode(DEBUG_LED_PIN, OUTPUT); digitalWrite(DEBUG_LED_PIN, LOW);`. -/
def LED_INIT (_p : PinState) : PinState :=
  ⟨PinDir.output, Level.low⟩

/-- `setLedColor` for the disabled backend: empty body `{}`. -/
def setLedColor (_r _g _b : Nat) (p : PinState) : PinState := p

/-- `#define LED_OFF()` for the disabled backend: empty macro. -/
def LED_OFF (p : PinState) : PinState := p

/-- `#define blinkYellow(interval)` for the disabled backend: empty
macro — it expands to nothing at all, so it neither writes hardware nor
keeps or advances any oscillator state. Threading the enabled variant's
state type through it for comparison, it is the identity. -/
def blinkYellow (_interval _timeUs : Nat)
    (s : Enabled.FineState) : Enabled.FineState × Bool :=
  (s, false)

end HelpButton.ArdLed.Disabled

namespace HelpButton.Dbg

open HelpButton

/-- The two compile-time logging levels of debug.h:
`DEBUG_LEVEL_NONE 0` and `DEBUG_LEVEL_VERBOSE 1`. -/
inductive DebugLevel where
  | none
  | verbose
deriving DecidableEq, Repr

/-- State of one build of the system: the status-indication subsystem's
state (coarse enabled backend: oscillator + NeoPixel) together with the
logging facade's state (whether `Serial` is running and the text printed
so far). The serial TX/RX pins (GPIO 1/3) are owned by the logging
facade, not by the status-indication subsystem. -/
structure SysState where
  blink : PioLed.Enabled.BlinkState
  led : NeoPixel
  serialOn : Bool
  logOut : List String
deriving DecidableEq, Repr

/-- Boot state of a build: oscillator statics `{0, false}`, NeoPixel
after `LED_INIT()`, `Serial` not started, nothing printed. -/
def sysInit : SysState :=
  ⟨PioLed.Enabled.blinkInit, PioLed.Enabled.initLed, false, []⟩

/-- The calls a build can make: the logging facade's macros
(`DEBUG_INIT()`, `DEBUG_DEINIT()`, `DEBUG_FLUSH()`, `DEBUG_VERBOSE(msg)`)
and the status-indication interface (`setLedColor`, the colour macros,
`blinkLed`). -/
inductive Call where
  | debugInit
  | debugDeinit
  | debugFlush
  | debugVerbose (msg : String)
  | setColor (r g b : Nat)
  | ledOff
  | ledRed
  | ledYellow
  | ledGreen
  | blink (r g b interval currentTime : Nat)
deriving DecidableEq, Repr

/-- One step of a build at a given logging level.
At `DEBUG_LEVEL_NONE` every logging macro is empty (note debug.h first
defines a pin-driving `DEBUG_INIT()` at lines 26-32, then — the
`#if DEBUG_LEVEL == DEBUG_LEVEL_VERBOSE` block being skipped — its
`#else` branch at lines 115-122 redefines `DEBUG_INIT()`, `DEBUG_DEINIT()`,
`DEBUG_FLUSH()`, `DEBUG_VERBOSE` to empty macros; the later definition is
the effective one), so each logging call is the identity on the state.
At `DEBUG_LEVEL_VERBOSE`, `DEBUG_INIT()` runs `Serial.begin(115200)`,
`DEBUG_DEINIT()` runs `Serial.end()` and parks the serial pins,
`DEBUG_FLUSH()` flushes, and `DEBUG_VERBOSE(msg)` prints `msg`.
None of the logging macros touch `statusLed` or the blink statics, and
debug_led.h does not reference `DEBUG_LEVEL`, so status-indication calls
behave identically at both levels. -/
def step (lvl : DebugLevel) (s : SysState) : Call → SysState
  | Call.debugInit =>
      match lvl with
      | DebugLevel.none => s
      | DebugLevel.verbose => { s with serialOn := true }
  | Call.debugDeinit =>
      match lvl with
      | DebugLevel.none => s
      | DebugLevel.verbose => { s with serialOn := false }
  | Call.debugFlush => s
  | Call.debugVerbose msg =>
      match lvl with
      | DebugLevel.none => s
      | DebugLevel.verbose => { s with logOut := s.logOut ++ [msg] }
  | Call.setColor r g b => { s with led := PioLed.Enabled.setLedColor r g b s.led }
  | Call.ledOff => { s with led := PioLed.Enabled.LED_OFF s.led }
  | Call.ledRed => { s with led := PioLed.Enabled.LED_RED s.led }
  | Call.ledYellow => { s with led := PioLed.Enabled.LED_YELLOW s.led }
  | Call.ledGreen => { s with led := PioLed.Enabled.LED_GREEN s.led }
  | Call.blink r g b interval currentTime =>
      let out := PioLed.Enabled.blinkLed r g b interval currentTime s.blink s.led
      { s with blink := out.1, led := out.2.1 }

/-- Run a build at a given logging level over a sequence of calls. -/
def run (lvl : DebugLevel) (s : SysState) (calls : List Call) : SysState :=
  calls.foldl (step lvl) s

end HelpButton.Dbg

namespace HelpButton

/-- `U32` as a numeral, for arithmetic automation. -/
theorem U32_eq : U32 = 4294967296 := by norm_num [U32]

/-- uint32 subtraction of truncated operands equals uint32 subtraction
of the raw operands: truncation to 32 bits commutes with the wrapping
difference. -/
theorem u32sub_mod_mod (a b : Nat) :
    u32sub (a % U32) (b % U32) = u32sub a b := by
  unfold u32sub
  rw [U32_eq] at *
  omega

/-- When the true difference `a - b` exists and fits in 32 bits, the
uint32 subtraction recovers it exactly. -/
theorem u32sub_eq_sub (a b : Nat) (h1 : b ≤ a) (h2 : a - b < U32) :
    u32sub a b = a - b := by
  unfold u32sub
  rw [U32_eq] at *
  omega

end HelpButton

namespace HelpButton.Claims

open HelpButton
open HelpButton.PioLed

/-- Claim C1: for every call to the coarse `blinkLed(color, interval)`,
if the elapsed time — the current millisecond reading minus the stored
`lastBlinkTime`, computed in uint32 — is at least `interval`, the call
flips `ledState`, stores the current reading in `lastBlinkTime`, and
drives the pixel to the colour when the new `ledState` is true or to
`Color(0,0,0)` when false (applying the configured brightness and
latching the frame); if the elapsed time is below `interval`, the call
changes nothing and performs no hardware operation. -/
theorem C1_coarse_blink_per_call_contract
    (r g b interval currentTime : Nat)
    (s : Enabled.BlinkState) (led : NeoPixel) :
    (interval ≤ u32sub (currentTime % U32) s.lastBlinkTime →
      Enabled.blinkLed r g b interval currentTime s led =
        (⟨currentTime % U32, !s.ledState⟩,
         showFrame (setBrightness DEBUG_LED_BRIGHTNESS
           (setPixelColor (if !s.ledState then ⟨r, g, b⟩ else Pixel.off) led)),
         true)) ∧
    (u32sub (currentTime % U32) s.lastBlinkTime < interval →
      Enabled.blinkLed r g b interval currentTime s led = (s, led, false)) := by
  obtain ⟨lt, st⟩ := s
  constructor
  · intro h
    unfold Enabled.blinkLed
    rw [if_pos h]
    cases st <;> rfl
  · intro h
    unfold Enabled.blinkLed
    rw [if_neg (Nat.not_le.mpr h)]

/-- Witness for C1: at interval 500 from the boot state, the call at
600 ms fires and drives yellow; the call at 400 ms is a no-op. -/
theorem C1_coarse_blink_per_call_contract_witness :
    Enabled.blinkLed 255 125 0 500 600 ⟨0, false⟩ Enabled.initLed =
      (⟨600, true⟩,
       showFrame (setBrightness DEBUG_LED_BRIGHTNESS
         (setPixelColor ⟨255, 125, 0⟩ Enabled.initLed)), true) ∧
    Enabled.blinkLed 255 125 0 500 400 ⟨0, false⟩ Enabled.initLed =
      (⟨0, false⟩, Enabled.initLed, false) :=
  ⟨(C1_coarse_blink_per_call_contract 255 125 0 500 600 ⟨0, false⟩
      Enabled.initLed).1 (by decide),
   (C1_coarse_blink_per_call_contract 255 125 0 500 400 ⟨0, false⟩
      Enabled.initLed).2 (by decide)⟩

/-- Claim C2 counterexample: in the fine-precision variant, starting
from the initialized state, `blinkLed(255,125,0,500)` at 500 ms (500000
us) fires with the register bit clear, so it lights the pixel and sets
the bit; the next call at 1000 ms fires with the bit set and only clears
the bit, never rewriting the pixel. At the end of that second call the
latched pixel is still the full yellow colour (lit) while the register
bit is off — the two are NOT equal, refuting the claim that the pixel
state and the companion register bit are equal after every `blink`
call. -/
theorem C2_pixel_register_desync_counterexample :
    ((ArdLed.Enabled.blinkLed 255 125 0 500 1000000
        (ArdLed.Enabled.blinkLed 255 125 0 500 500000
          ArdLed.Enabled.initState).1).1.regBit = false) ∧
    (((ArdLed.Enabled.blinkLed 255 125 0 500 1000000
        (ArdLed.Enabled.blinkLed 255 125 0 500 500000
          ArdLed.Enabled.initState).1).1.led).shown = ⟨255, 125, 0⟩) ∧
    pixelLit ((ArdLed.Enabled.blinkLed 255 125 0 500 1000000
        (ArdLed.Enabled.blinkLed 255 125 0 500 500000
          ArdLed.Enabled.initState).1).1.led)
      ≠ (ArdLed.Enabled.blinkLed 255 125 0 500 1000000
          (ArdLed.Enabled.blinkLed 255 125 0 500 500000
            ArdLed.Enabled.initState).1).1.regBit := by
  decide

/-- Claim C2 (amended): in the fine-precision variant, each `blink` call
either fires or changes nothing. When it fires with the register bit
clear, the pixel is driven to the colour and the register bit is set
within that single call; when it fires with the register bit set, only
the register bit is cleared and the pixel is not rewritten — it retains
its previously latched colour — so after an on-to-off toggle the pixel
state (still lit) and the register bit (off) differ until the next
firing call. -/
theorem C2_fine_blink_per_call_contract
    (r g b interval timeUs : Nat) (s : ArdLed.Enabled.FineState) :
    (interval ≤ u64sub ((timeUs / 1000) % U64) s.lastBlinkTime →
      ((s.regBit = true →
          ArdLed.Enabled.blinkLed r g b interval timeUs s =
            ({ s with lastBlinkTime := (timeUs / 1000) % U64,
                      regBit := false }, true)) ∧
       (s.regBit = false →
          ArdLed.Enabled.blinkLed r g b interval timeUs s =
            ({ lastBlinkTime := (timeUs / 1000) % U64,
               led := showFrame (setBrightness ArdLed.DEBUG_LED_BRIGHTNESS
                        (setPixelColor ⟨r, g, b⟩ s.led)),
               regBit := true }, true)))) ∧
    (u64sub ((timeUs / 1000) % U64) s.lastBlinkTime < interval →
      ArdLed.Enabled.blinkLed r g b interval timeUs s = (s, false)) := by
  obtain ⟨lt, led, bit⟩ := s
  constructor
  · intro h
    constructor
    · intro hb
      subst hb
      unfold ArdLed.Enabled.blinkLed
      rw [if_pos h]
      rfl
    · intro hb
      subst hb
      unfold ArdLed.Enabled.blinkLed
      rw [if_pos h]
      rfl
  · intro h
    unfold ArdLed.Enabled.blinkLed
    rw [if_neg (Nat.not_le.mpr h)]

/-- Witness for C2 (amended): from the initialized state (bit clear), the
call at 500 ms lights the pixel and sets the bit in one call; from that
state, the call at 1000 ms clears the bit and leaves the pixel as it
was; a call at 1200 ms (only 200 ms later) changes nothing. -/
theorem C2_fine_blink_per_call_contract_witness :
    (ArdLed.Enabled.blinkLed 255 125 0 500 500000 ArdLed.Enabled.initState =
      ({ lastBlinkTime := 500,
         led := showFrame (setBrightness ArdLed.DEBUG_LED_BRIGHTNESS
                  (setPixelColor ⟨255, 125, 0⟩ ArdLed.Enabled.initState.led)),
         regBit := true }, true)) ∧
    (ArdLed.Enabled.blinkLed 255 125 0 500 1000000
        ⟨500, showFrame (setBrightness ArdLed.DEBUG_LED_BRIGHTNESS
                (setPixelColor ⟨255, 125, 0⟩ ArdLed.Enabled.initState.led)),
         true⟩ =
      ({ lastBlinkTime := 1000,
         led := showFrame (setBrightness ArdLed.DEBUG_LED_BRIGHTNESS
                  (setPixelColor ⟨255, 125, 0⟩ ArdLed.Enabled.initState.led)),
         regBit := false }, true)) ∧
    (ArdLed.Enabled.blinkLed 255 125 0 500 1200000
        ⟨1000, ArdLed.Enabled.initState.led, false⟩ =
      (⟨1000, ArdLed.Enabled.initState.led, false⟩, false)) :=
  ⟨((C2_fine_blink_per_call_contract 255 125 0 500 500000
      ArdLed.Enabled.initState).1 (by decide)).2 (by decide),
   ((C2_fine_blink_per_call_contract 255 125 0 500 1000000
      ⟨500, showFrame (setBrightness ArdLed.DEBUG_LED_BRIGHTNESS
              (setPixelColor ⟨255, 125, 0⟩ ArdLed.Enabled.initState.led)),
       true⟩).1 (by decide)).1 (by decide),
   (C2_fine_blink_per_call_contract 255 125 0 500 1200000
      ⟨1000, ArdLed.Enabled.initState.led, false⟩).2 (by decide)⟩

/-- Claim C3 counterexample: after a single call at 500 ms with interval
500 from the boot state, the enabled backend's oscillator reads
`{lastBlinkTime := 500, ledState := true}`, but the disabled backend's
`blinkLed` has an empty body and leaves the threaded oscillator state at
`{0, false}` — it does not advance the oscillator state as the enabled
backend does for the same call. -/
theorem C3_disabled_blink_state_counterexample :
    (PioLed.Disabled.blinkLed 255 125 0 500 500 PioLed.Enabled.blinkInit
        ⟨PinDir.output, Level.low⟩).1 ≠
    (PioLed.Enabled.blinkLed 255 125 0 500 500 PioLed.Enabled.blinkInit
        PioLed.Enabled.initLed).1 := by
  decide

/-- Claim C3 (amended): the LED-disabled backend's blink entry points are
complete no-ops — the body of the pio variant's `blinkLed` is empty and
the arduino variant's `blinkYellow` macro expands to nothing — so they
perform no pixel or register writes AND keep or advance no oscillator
state (there is no oscillator state in the disabled backend, so it does
not update as the enabled backend does). -/
theorem C3_disabled_blink_total_noop
    (r g b interval currentTime timeUs : Nat)
    (s : PioLed.Enabled.BlinkState) (p : PinState)
    (fs : ArdLed.Enabled.FineState) :
    PioLed.Disabled.blinkLed r g b interval currentTime s p = (s, p, false) ∧
    ArdLed.Disabled.blinkYellow interval timeUs fs = (fs, false) :=
  ⟨rfl, rfl⟩

/-- Claim C4 counterexample: with the enabled backend and the boot state
`{lastBlinkTime := 0, ledState := false}`, polling
`blinkLed(255,125,0,500)` at 0, 400, 600 and 1100 ms fires the toggle at
600 and 1100 ms only — the per-call fired flags are
`[false, false, true, true]`, not the `[true, false, true, true]`
pattern the claim asserts (toggle at t=0): at t=0 the computed elapsed
time is 0, which is below the 500 ms interval, so the first call does
not toggle. -/
theorem C4_trace_counterexample :
    (PioLed.Enabled.runBlink 255 125 0 500 [0, 400, 600, 1100]
        PioLed.Enabled.blinkInit PioLed.Enabled.initLed).2.2
      = [false, false, true, true] ∧
    ([false, false, true, true] ≠ [true, false, true, true]) := by
  decide

/-- Claim C4 (amended): with the enabled backend and oscillator state
initialized to `{lastBlinkTime := 0, ledState := false}`, calling
`blink(YELLOW, 500)` at simulated times 0, 400, 600 and 1100 ms produces
toggles exactly at t=600 (indicator driven on, yellow latched at
brightness 15) and t=1100 (driven off), and no toggle at t=0 or t=400
(at t=0 the elapsed time is 0 < 500, so the first call is a no-op). -/
theorem C4_blink_yellow_500_trace :
    (PioLed.Enabled.runBlink 255 125 0 500 [0, 400, 600, 1100]
        PioLed.Enabled.blinkInit PioLed.Enabled.initLed).2.2
      = [false, false, true, true] ∧
    (PioLed.Enabled.runBlink 255 125 0 500 [0, 400, 600]
        PioLed.Enabled.blinkInit PioLed.Enabled.initLed).1
      = ⟨600, true⟩ ∧
    ((PioLed.Enabled.runBlink 255 125 0 500 [0, 400, 600]
        PioLed.Enabled.blinkInit PioLed.Enabled.initLed).2.1).shown
      = ⟨255, 125, 0⟩ ∧
    (PioLed.Enabled.runBlink 255 125 0 500 [0, 400, 600, 1100]
        PioLed.Enabled.blinkInit PioLed.Enabled.initLed).1
      = ⟨1100, false⟩ ∧
    ((PioLed.Enabled.runBlink 255 125 0 500 [0, 400, 600, 1100]
        PioLed.Enabled.blinkInit PioLed.Enabled.initLed).2.1).shown
      = Pixel.off := by
  decide

/-- Claim C5 counterexample: with interval t = 500 ms, polling from the
boot state at 500 ms and then 2000 ms spans four elapsed multiples of t
(2000 / 500 = 4), but the indicator toggles only twice (once per call,
both calls fire) — so the indicator does not toggle "exactly once per
elapsed multiple of t" over every call sequence: multiples of t that
pass without a poll do not produce toggles. -/
theorem C5_sparse_polling_counterexample :
    ((PioLed.Enabled.runBlink 255 125 0 500 [500, 2000]
        PioLed.Enabled.blinkInit PioLed.Enabled.initLed).2.2.count true = 2) ∧
    ((2000 - 0) / 500 = 4) ∧ ((2 : Nat) ≠ 4) := by
  decide

/-- The coarse `blinkLed` fires exactly when the uint32 elapsed time
since the stored last-toggle time reaches the interval. -/
theorem PioLed_blink_fired_iff
    (t r g b cur : Nat) (s : PioLed.Enabled.BlinkState) (led : NeoPixel) :
    (PioLed.Enabled.blinkLed r g b t cur s led).2.2 = true ↔
      t ≤ u32sub (cur % U32) s.lastBlinkTime := by
  unfold PioLed.Enabled.blinkLed
  by_cases h : t ≤ u32sub (cur % U32) s.lastBlinkTime
  · rw [if_pos h]
    simpa using h
  · rw [if_neg h]
    simpa using h

/-- Claim C5 (amended): for every interval t and every call, the coarse
`blinkLed` toggles exactly once in a call when at least t has elapsed
(in uint32 arithmetic) since the stored last-toggle time, and otherwise
the call is an idempotent no-op: it leaves the oscillator state and the
LED unchanged and performs no write, and repeating the call at the same
timestamp again changes nothing. Toggles happen at most once per call,
so elapsed multiples of t between two polls do not accumulate into
extra toggles. -/
theorem C5_toggle_iff_elapsed
    (t r g b cur : Nat) (s : PioLed.Enabled.BlinkState) (led : NeoPixel) :
    ((PioLed.Enabled.blinkLed r g b t cur s led).2.2 = true ↔
       t ≤ u32sub (cur % U32) s.lastBlinkTime) ∧
    (u32sub (cur % U32) s.lastBlinkTime < t →
      PioLed.Enabled.blinkLed r g b t cur s led = (s, led, false) ∧
      PioLed.Enabled.blinkLed r g b t cur
          (PioLed.Enabled.blinkLed r g b t cur s led).1
          (PioLed.Enabled.blinkLed r g b t cur s led).2.1
        = (s, led, false)) := by
  constructor
  · exact PioLed_blink_fired_iff t r g b cur s led
  · intro h
    have hnoop : PioLed.Enabled.blinkLed r g b t cur s led = (s, led, false) := by
      unfold PioLed.Enabled.blinkLed
      rw [if_neg (Nat.not_le.mpr h)]
    refine ⟨hnoop, ?_⟩
    rw [hnoop]
    exact hnoop

/-- Witness for C5 (amended): at t = 500 from the boot state, the call
at 400 ms does not fire (400 < 500), is a no-op, and repeating it
changes nothing; its fired flag is false. -/
theorem C5_toggle_iff_elapsed_witness :
    (¬ (PioLed.Enabled.blinkLed 255 125 0 500 400 PioLed.Enabled.blinkInit
          PioLed.Enabled.initLed).2.2 = true) ∧
    (PioLed.Enabled.blinkLed 255 125 0 500 400 PioLed.Enabled.blinkInit
        PioLed.Enabled.initLed
      = (PioLed.Enabled.blinkInit, PioLed.Enabled.initLed, false)) ∧
    (PioLed.Enabled.blinkLed 255 125 0 500 400
        (PioLed.Enabled.blinkLed 255 125 0 500 400 PioLed.Enabled.blinkInit
          PioLed.Enabled.initLed).1
        (PioLed.Enabled.blinkLed 255 125 0 500 400 PioLed.Enabled.blinkInit
          PioLed.Enabled.initLed).2.1
      = (PioLed.Enabled.blinkInit, PioLed.Enabled.initLed, false)) :=
  ⟨fun hc => by
      have h1 := (C5_toggle_iff_elapsed 500 255 125 0 400
        PioLed.Enabled.blinkInit PioLed.Enabled.initLed).1.mp hc
      exact absurd h1 (by decide),
   ((C5_toggle_iff_elapsed 500 255 125 0 400 PioLed.Enabled.blinkInit
      PioLed.Enabled.initLed).2 (by decide)).1,
   ((C5_toggle_iff_elapsed 500 255 125 0 400 PioLed.Enabled.blinkInit
      PioLed.Enabled.initLed).2 (by decide)).2⟩

/-- Claim C6: a zero interval never disables blinking, divides by zero
or hangs: `blink(color, 0)` fires on every call in both enabled
variants, because the unsigned elapsed-time comparison "elapsed ≥ 0" is
always true. In the coarse variant every such call flips `ledState`;
in the fine variant every such call fires its toggle (the functions are
total — there is no division by the interval and no loop). -/
theorem C6_zero_interval_always_toggles
    (r g b currentTime timeUs : Nat)
    (s : PioLed.Enabled.BlinkState) (led : NeoPixel)
    (fs : ArdLed.Enabled.FineState) :
    ((PioLed.Enabled.blinkLed r g b 0 currentTime s led).2.2 = true) ∧
    ((PioLed.Enabled.blinkLed r g b 0 currentTime s led).1.ledState
       = !s.ledState) ∧
    ((ArdLed.Enabled.blinkLed r g b 0 timeUs fs).2 = true) := by
  refine ⟨?_, ?_, ?_⟩
  · unfold PioLed.Enabled.blinkLed
    rw [if_pos (Nat.zero_le _)]
  · unfold PioLed.Enabled.blinkLed
    rw [if_pos (Nat.zero_le _)]
  · unfold ArdLed.Enabled.blinkLed
    rw [if_pos (Nat.zero_le _)]
    by_cases hb : fs.regBit
    · rw [if_pos hb]
    · rw [if_neg hb]

/-- Every disabled-backend operation leaves the fallback pin untouched:
every body in the disabled branch of the header is empty. -/
theorem PioLed_Disabled_runOp_id (p : PinState) (op : PioLed.Disabled.Op) :
    PioLed.Disabled.runOp p op = p := by
  cases op <;> rfl

/-- Running any sequence of disabled-backend operations leaves the pin
untouched. -/
theorem PioLed_Disabled_runOps_id (p : PinState)
    (ops : List PioLed.Disabled.Op) :
    PioLed.Disabled.runOps p ops = p := by
  induction ops generalizing p with
  | nil => rfl
  | cons op ops ih =>
      unfold PioLed.Disabled.runOps at *
      rw [List.foldl_cons, PioLed_Disabled_runOp_id]
      exact ih p

/-- Claim C7: with the LED-disabled backend, `LED_INIT()` configures the
fallback pin as an output driven LOW (in both the pio and arduino
headers), and after any sequence of subsequent interface operations
(`setLedColor`, `blinkLed`, the empty colour macros) the pin is still a
LOW-driven output — the line is never left floating. -/
theorem C7_disabled_pin_stays_low (p0 : PinState)
    (ops : List PioLed.Disabled.Op) :
    (PioLed.Disabled.runOps (PioLed.Disabled.LED_INIT p0) ops).level
      = Level.low ∧
    (PioLed.Disabled.runOps (PioLed.Disabled.LED_INIT p0) ops).dir
      = PinDir.output ∧
    ArdLed.Disabled.LED_INIT p0 = ⟨PinDir.output, Level.low⟩ := by
  rw [PioLed_Disabled_runOps_id]
  exact ⟨rfl, rfl, rfl⟩

/-- Claim C8: for every backend of both headers, `LED_OFF()` is
observationally equivalent to `setLedColor(0,0,0)`: the two calls
produce identical states (pixel buffer, brightness, latched frame, and
fallback pin level alike). In the enabled backends `LED_OFF()` expands
to exactly `setLedColor(0,0,0)`; in the disabled backends both are
no-ops. -/
theorem C8_led_off_equiv_set_color_zero (led : NeoPixel) (p : PinState) :
    PioLed.Enabled.LED_OFF led = PioLed.Enabled.setLedColor 0 0 0 led ∧
    PioLed.Disabled.LED_OFF p = PioLed.Disabled.setLedColor 0 0 0 p ∧
    ArdLed.Enabled.LED_OFF led = ArdLed.Enabled.setLedColor 0 0 0 led ∧
    ArdLed.Disabled.LED_OFF p = ArdLed.Disabled.setLedColor 0 0 0 p :=
  ⟨rfl, rfl, rfl, rfl⟩

open HelpButton.Dbg in
/-- At both logging levels, a step changes the status-indication fields
(`led`, `blink`) in the same way whenever the incoming states agree on
them: no logging macro touches `statusLed` or the blink statics, and
the status-indication calls do not depend on the logging level. -/
theorem Dbg_run_led_blink_agree (calls : List Call) :
    ∀ s1 s2 : SysState, s1.led = s2.led → s1.blink = s2.blink →
      (run DebugLevel.none s1 calls).led
        = (run DebugLevel.verbose s2 calls).led ∧
      (run DebugLevel.none s1 calls).blink
        = (run DebugLevel.verbose s2 calls).blink := by
  induction calls with
  | nil => exact fun s1 s2 h1 h2 => ⟨h1, h2⟩
  | cons c cs ih =>
      intro s1 s2 h1 h2
      have step1 : (step DebugLevel.none s1 c).led
          = (step DebugLevel.verbose s2 c).led ∧
          (step DebugLevel.none s1 c).blink
          = (step DebugLevel.verbose s2 c).blink := by
        cases c <;> simp [step, h1, h2]
      exact ih (step DebugLevel.none s1 c) (step DebugLevel.verbose s2 c)
        step1.1 step1.2

open HelpButton.Dbg in
/-- Claim C9: with the compile-time logging level set to
`DEBUG_LEVEL_NONE`, every logging macro is empty — each logging call is
the identity on the whole system state — and for every call sequence
the status-indication subsystem's observable state (the NeoPixel and
the blink oscillator) is identical to that of the same sequence run
with `DEBUG_LEVEL_VERBOSE`. -/
theorem C9_logging_level_transparent (calls : List Call)
    (s : SysState) (msg : String) :
    (step DebugLevel.none s Call.debugInit = s ∧
     step DebugLevel.none s Call.debugDeinit = s ∧
     step DebugLevel.none s Call.debugFlush = s ∧
     step DebugLevel.none s (Call.debugVerbose msg) = s) ∧
    ((run DebugLevel.none s calls).led
        = (run DebugLevel.verbose s calls).led ∧
     (run DebugLevel.none s calls).blink
        = (run DebugLevel.verbose s calls).blink) :=
  ⟨⟨rfl, rfl, rfl, rfl⟩, Dbg_run_led_blink_agree calls s s rfl rfl⟩

/-- Claim C10: the coarse variant computes its elapsed-time test in
uint32 arithmetic, `currentTime - lastBlinkTime` modulo 2^32, with
`currentTime = millis()` being the true millisecond count truncated to
32 bits and `lastBlinkTime` a previous such reading. For every pair of
true timestamps whose difference is below 2^32 ms, the computed elapsed
value is exactly the true difference, so a call fires precisely when
the true elapsed time reaches the interval — including across a
wraparound of the 32-bit millisecond counter, where the oscillator
keeps toggling rather than stalling. -/
theorem C10_u32_elapsed_exact_across_wraparound
    (realLast realCur interval r g b : Nat) (st : Bool) (led : NeoPixel)
    (h1 : realLast ≤ realCur) (h2 : realCur - realLast < U32) :
    u32sub (realCur % U32) (realLast % U32) = realCur - realLast ∧
    ((PioLed.Enabled.blinkLed r g b interval realCur
        ⟨realLast % U32, st⟩ led).2.2 = true ↔
      interval ≤ realCur - realLast) := by
  have key : u32sub (realCur % U32) (realLast % U32) = realCur - realLast := by
    rw [u32sub_mod_mod]
    exact u32sub_eq_sub realCur realLast h1 h2
  refine ⟨key, ?_⟩
  have hfire := PioLed_blink_fired_iff interval r g b realCur
    ⟨realLast % U32, st⟩ led
  rw [key] at hfire
  exact hfire

/-- Witness for C10: a concrete wraparound. The stored reading is
2^32 - 100 (100 ms before the counter wraps); 500 ms later the true
count is 2^32 + 400 and `millis()` reads 400. The computed uint32
elapsed time is exactly 500, so `blink` with interval 500 fires. -/
theorem C10_u32_elapsed_exact_across_wraparound_witness :
    (U32 - 100 ≤ U32 + 400 ∧ (U32 + 400) - (U32 - 100) < U32) ∧
    (u32sub ((U32 + 400) % U32) ((U32 - 100) % U32)
        = (U32 + 400) - (U32 - 100) ∧
     ((PioLed.Enabled.blinkLed 255 125 0 500 (U32 + 400)
        ⟨(U32 - 100) % U32, true⟩ PioLed.Enabled.initLed).2.2 = true ↔
       500 ≤ (U32 + 400) - (U32 - 100))) :=
  ⟨⟨by decide, by decide⟩,
   C10_u32_elapsed_exact_across_wraparound (U32 - 100) (U32 + 400) 500
     255 125 0 true PioLed.Enabled.initLed (by decide) (by decide)⟩

end HelpButton.Claims

